import Mathlib

set_option maxRecDepth 20000

/-
Verification development for the pg-db-sync repository.

The Python sources (src/sync_manager.py, src/utils/database.py) are shallowly
embedded below. Database sessions are modelled by oracle functions: each
oracle field gives the outcome the live database would produce for the
corresponding statement (query parameters are absorbed into the oracle, which
is fixed per call context). Exceptions are modelled with Except String, the
string being the Python exception text as far as the code inspects it.
Side effects that the code observes (issued statements, successful inserts,
log records) are made explicit as return values or event traces.
-/

namespace PgDbSync

/-- A SQL scalar: none models SQL NULL / Python None. -/
abbrev Value := Option String

/-- A result row as psycopg2.extras.DictCursor yields it: an ordered mapping
from column name to value (modelled as an association list, preserving the
column order of the cursor description). -/
abbrev Row := List (String × Value)

/-- A column descriptor as built by get_table_columns: a dict with
keys name and type. -/
structure Col where
  name : String
  type : String
deriving Repr, DecidableEq

/-! ## Connection Handle: execute_query (src/utils/database.py lines 44-72) -/

/-- The read/write classifier used by execute_query:
query.lower().startswith("select"), computed over the character sequence. -/
def startsWithSelect (q : String) : Bool :=
  (q.data.map Char.toLower).take 6 == "select".data

/-- Outcome of one execute_query call on an open connection: the rows the
call returned, and whether the session committed the statement. -/
structure ExecOutcome where
  rows : List Row
  committed : Bool
deriving Repr, DecidableEq

/-- Shallow embedding of DatabaseUtility.execute_query. The oracle
fetch gives, per statement text, what cursor.execute plus fetchall would
produce (or the exception the statement raises). On a closed connection the
method raises before touching the cursor; on statement failure the session
rolls back and the error is re-raised (the Except.error branch). -/
def execute_query (connected : Bool) (fetch : String → Except String (List Row))
    (q : String) : Except String ExecOutcome :=
  if connected = false then
    .error "Database connection is not established."
  else
    match fetch q with
    | .error e => .error e
    | .ok rows =>
      if startsWithSelect q then .ok { rows := rows, committed := false }
      else .ok { rows := [], committed := true }

/-- Modelled from the spec: section 4.1 calls a statement a read query when it
queries data rather than modifying it; concretely, a select statement
irrespective of leading whitespace. The code under src/ never defines such a
notion; this definition exists only to compare the spec sentence of C9 with
the classifier the code actually uses. -/
def isReadQuery_spec (q : String) : Bool :=
  ((q.data.dropWhile Char.isWhitespace).map Char.toLower).take 6 == "select".data

/-! ## Statement texts from src/utils/database.py

The triple-quoted Python literals begin with a newline followed by the
indentation of the source file; that leading whitespace is what the
startsWithSelect classifier sees. -/

/-- Line 105: the search-path diagnostic statement. -/
def searchPathQuery : String := "SHOW search_path;"

/-- Line 110: the current user / database diagnostic statement. -/
def userQuery : String := "SELECT current_user, current_database();"

/-- Lines 116-123: the visible-relations fallback statement (triple-quoted,
so its text starts with a newline and indentation). -/
def visibleTablesQuery : String :=
  "\n                SELECT c.relname AS table_name\n                FROM pg_catalog.pg_class c\n                LEFT JOIN pg_catalog.pg_namespace n ON n.oid = c.relnamespace\n                WHERE c.relkind = \x27r\x27\n                AND n.nspname NOT IN (\x27pg_catalog\x27, \x27information_schema\x27)\n                AND c.relname !~ \x27^pg_\x27;\n            "

/-- Lines 139-142: the tables-owned-by-current-user last-resort statement
(triple-quoted, so its text starts with a newline and indentation). -/
def emergencyQuery : String :=
  "\n                    SELECT tablename FROM pg_tables \n                    WHERE tableowner = current_user;\n                "

/-- Lines 360-365: the information-schema last-resort statement of
get_table_columns (triple-quoted, so its text starts with a newline). -/
def infoSchemaColumnsQuery : String :=
  "\n                    SELECT column_name, data_type\n                    FROM information_schema.columns\n                    WHERE table_schema = %s\n                    AND table_name = %s;\n                "

/-! ## Schema Inspector: fetch_all_tables (src/utils/database.py lines 74-151) -/

/-- Oracle environment for fetch_all_tables. rawTables is the outcome of the
primary raw-cursor catalog query (lines 89-94, not routed through
execute_query); fetch backs every execute_query call. -/
structure TablesEnv where
  connected : Bool
  rawTables : Except String (List String)
  fetch : String → Except String (List Row)

/-- The rows an execute_query call returns in fetch_all_tables, discarding
the commit flag (the Python caller only sees the returned list). -/
def execQ (env : TablesEnv) (q : String) : Except String (List Row) :=
  match execute_query env.connected env.fetch q with
  | .error e => .error e
  | .ok out => .ok out.rows

/-- The except-block of fetch_all_tables (lines 135-151): the emergency
owned-by-current-user query, itself guarded; any failure or an empty result
yields the empty list. Extracting row["tablename"] happens inside the inner
try, so a missing key also lands in the inner except. -/
def emergencyFallback (env : TablesEnv) : List String :=
  match execQ env emergencyQuery with
  | .error _ => []
  | .ok result =>
    if result.isEmpty then []
    else
      match result.mapM (fun r => r.lookup "tablename") with
      | none => []
      | some vals => vals.map (fun v => v.getD "")

/-- Shallow embedding of DatabaseUtility.fetch_all_tables. The try-block
runs the raw primary query, then (on an empty result) the two diagnostic
statements, then the visible-relations statement; any exception inside the
try-block transfers to emergencyFallback. The schema argument only
parameterizes the oracle, so it is absorbed into env. -/
def fetch_all_tables (env : TablesEnv) : List String :=
  match env.rawTables with
  | .error _ => emergencyFallback env
  | .ok tables =>
    if tables.isEmpty then
      match execQ env searchPathQuery with
      | .error _ => emergencyFallback env
      | .ok _ =>
        match execQ env userQuery with
        | .error _ => emergencyFallback env
        | .ok _ =>
          match execQ env visibleTablesQuery with
          | .error _ => emergencyFallback env
          | .ok visibleResult =>
            if visibleResult.isEmpty then []
            else
              match visibleResult.mapM (fun r => r.lookup "table_name") with
              | none => emergencyFallback env
              | some vals => vals.map (fun v => v.getD "")
    else tables

/-! ## Table Provisioner: create_table (src/utils/database.py lines 166-177) -/

/-- The column-definitions fragment: ", ".join(f"{name} {type}"). -/
def buildColumnDefs (columns : List Col) : String :=
  String.intercalate ", " (columns.map (fun c => c.name ++ " " ++ c.type))

/-- The statement create_table builds. -/
def createTableQuery (tableName : String) (columns : List Col) : String :=
  "CREATE TABLE IF NOT EXISTS " ++ tableName ++ " (" ++ buildColumnDefs columns ++ ");"

/-- Shallow embedding of DatabaseUtility.create_table: build the statement,
run it through execute_query, propagate any failure. There is no check on
columns being empty. -/
def create_table (connected : Bool) (fetch : String → Except String (List Row))
    (tableName : String) (columns : List Col) : Except String Unit :=
  match execute_query connected fetch (createTableQuery tableName columns) with
  | .error e => .error e
  | .ok _ => .ok ()

/-! ## Data Transfer Engine: insert_data (src/utils/database.py lines 179-241) -/

/-- Substring test modelling the Python expression needle in haystack. -/
def strContains (hay needle : String) : Bool :=
  (List.range (hay.toList.length + 1)).any
    (fun i => (hay.toList.drop i).take needle.toList.length == needle.toList)

/-- columns = list(data[0].keys()): the first row fixes the column list. -/
def derivedColumns : List Row → List String
  | [] => []
  | row0 :: _ => row0.map Prod.fst

/-- values = [row[col] for col in columns] (line 205): row[col] on a mapping
raises a KeyError at the first column name the row lacks; the comprehension
evaluates left to right. -/
def extractValues (row : Row) : List String → Except String (List Value)
  | [] => .ok []
  | c :: cs =>
    match row.lookup c with
    | none => .error ("KeyError: " ++ c)
    | some v =>
      match extractValues row cs with
      | .error e => .error e
      | .ok vs => .ok (v :: vs)

/-- The value tuple a row contributes once its keys are known to cover the
column list (and, on the alternative path, unconditionally): row lookups
with missing keys giving null. -/
def valsOf (columns : List String) (row : Row) : List Value :=
  columns.map (fun c => (row.lookup c).getD none)

/-- The primary insert loop (lines 203-211): per row, extract values with
row[col], then issue one INSERT; the whole loop sits inside one try, so the
first exception ends it. exec is the oracle for the n-th INSERT issued during
this insert_data call (counted across both loops); the returned triple is
(value tuples successfully inserted, INSERT calls issued, exception if any).
-/
def primaryInsertLoop (exec : Nat → Except String Unit) (columns : List String) :
    List Row → Nat → List (List Value) → List (List Value) × Nat × Option String
  | [], k, acc => (acc, k, none)
  | row :: rest, k, acc =>
    match extractValues row columns with
    | .error e => (acc, k, some e)
    | .ok vals =>
      match exec k with
      | .error e => (acc, k + 1, some e)
      | .ok _ => primaryInsertLoop exec columns rest (k + 1) (acc ++ [vals])

/-- The alternative insert loop (lines 233-237): values come from
row.get(col), so missing keys yield null; the loop again sits inside one try,
so its first exception ends it. -/
def altInsertLoop (exec : Nat → Except String Unit) (columns : List String) :
    List Row → Nat → List (List Value) → List (List Value) × Option String
  | [], _, acc => (acc, none)
  | row :: rest, k, acc =>
    match exec k with
    | .error e => (acc, some e)
    | .ok _ => altInsertLoop exec columns rest (k + 1) (acc ++ [valsOf columns row])

/-- Result of one insert_data call: value tuples of the INSERTs that
succeeded, in order of execution, and the error-severity log records the
method itself emitted. Every Python path of the method returns None, so the
embedding is total: insert_data never raises to its caller. -/
structure InsertResult where
  inserted : List (List Value)
  errorLogs : List String
deriving Repr, DecidableEq

/-- Shallow embedding of DatabaseUtility.insert_data. Empty data logs a
warning and returns. Otherwise the primary loop runs; on an exception the
method logs it, and only when the exception text contains odict_iterator
does the alternative loop re-run over the whole row list (with the counter
continuing, since the failed statement was already issued). -/
def insert_data (exec : Nat → Except String Unit) (tableName : String)
    (data : List Row) : InsertResult :=
  if data.isEmpty then { inserted := [], errorLogs := [] }
  else
    let columns := derivedColumns data
    match primaryInsertLoop exec columns data 0 [] with
    | (ins, _, none) => { inserted := ins, errorLogs := [] }
    | (ins, k, some e) =>
      if strContains e "odict_iterator" then
        match altInsertLoop exec columns data k [] with
        | (ins2, none) =>
          { inserted := ins ++ ins2,
            errorLogs := ["Error inserting data into table " ++ tableName ++ ": " ++ e] }
        | (ins2, some e2) =>
          { inserted := ins ++ ins2,
            errorLogs := ["Error inserting data into table " ++ tableName ++ ": " ++ e,
                          "Alternative insertion also failed: " ++ e2] }
      else
        { inserted := ins,
          errorLogs := ["Error inserting data into table " ++ tableName ++ ": " ++ e] }

/-! ## Schema Inspector: get_table_columns (src/utils/database.py lines 286-371) -/

/-- Oracle environment for get_table_columns on one table: the primary
catalog query outcome (raw cursor, lines 300-324), the zero-row select's
column names (line 335: cursor.description of SELECT * ... LIMIT 0), the
per-column information-schema type lookup (lines 340-345: fetchone, so an
Option row), and the execute_query oracle for the last-resort path. -/
structure ColsEnv where
  connected : Bool
  primaryCols : Except String (List Col)
  altSelectNames : Except String (List String)
  typeLookup : String → Except String (Option String)
  fetch : String → Except String (List Row)

/-- The per-name body of the alternative path (lines 338-347): look up each
column name's data_type, defaulting to text when fetchone returns nothing;
a raised lookup aborts the whole alternative path. -/
def altColumnsLoop (env : ColsEnv) : List String → Except String (List Col)
  | [] => .ok []
  | n :: ns =>
    match env.typeLookup n with
    | .error e => .error e
    | .ok t? =>
      match altColumnsLoop env ns with
      | .error e => .error e
      | .ok cols => .ok ({ name := n, type := t?.getD "text" } :: cols)

/-- The alternative path of get_table_columns (lines 333-352): zero-row
select for the names, then the per-name type loop. -/
def altColumns (env : ColsEnv) : Except String (List Col) :=
  match env.altSelectNames with
  | .error e => .error e
  | .ok names => altColumnsLoop env names

/-- The except-block of get_table_columns (lines 356-371): the
information-schema statement through execute_query; any failure, including a
missing key while building the descriptors, yields the empty list. -/
def lastResortColumns (env : ColsEnv) : List Col :=
  match execute_query env.connected env.fetch infoSchemaColumnsQuery with
  | .error _ => []
  | .ok out =>
    match out.rows.mapM (fun r =>
        match r.lookup "column_name", r.lookup "data_type" with
        | some n, some t => some (n, t)
        | _, _ => none) with
    | none => []
    | some pairs => pairs.map (fun p => { name := p.1.getD "", type := p.2.getD "" })

/-- Shallow embedding of DatabaseUtility.get_table_columns: primary catalog
query; if it returns no columns, the alternative zero-row-select path; any
exception in the try-block transfers to the last-resort path. -/
def get_table_columns (env : ColsEnv) : List Col :=
  match env.primaryCols with
  | .error _ => lastResortColumns env
  | .ok cols =>
    if cols.isEmpty then
      match altColumns env with
      | .error _ => lastResortColumns env
      | .ok altCols => altCols
    else cols

/-! ## Sync Orchestrator: SyncManager (src/sync_manager.py) -/

/-- Observable events of one sync run: the database calls the orchestrator
issues and the log records it emits. createTab and insertData carry their
arguments so the trace shows what was provisioned and populated. -/
inductive Ev
  | listTables
  | getCols (table : String)
  | createTab (table : String) (columns : List Col)
  | fetchData (table : String)
  | insertData (table : String) (rows : List Row)
  | logDebug (msg : String)
  | logError (msg : String)
deriving Repr, DecidableEq

/-- Oracle environment for a sync run: allTables is what
source_db.fetch_all_tables() returns (that method never raises, see
fetch_all_tables above), and the four per-table methods with the outcome the
respective DatabaseUtility call would produce. -/
structure SyncEnv where
  allTables : List String
  getColumns : String → Except String (List Col)
  createTable : String → List Col → Except String Unit
  fetchData : String → Except String (List Row)
  insertData : String → List Row → Except String Unit

/-- The target-table defaulting at the top of sync_table (lines 26-27):
if not target_table: target_table = source_table — an absent argument and an
empty string are both falsy in Python. -/
def resolvedTarget (sourceTable : String) : Option String → String
  | none => sourceTable
  | some t => if t.isEmpty then sourceTable else t

/-- Shallow embedding of SyncManager.sync_table (lines 25-47). Each of the
four steps is wrapped in its own try/except that logs the error and falls
through to the next step. A step whose input variable was never assigned
(because the producing step raised) fails on the unbound local while
evaluating the call arguments, so that call is never issued and the name
error is logged by that step's except block. -/
def sync_table (env : SyncEnv) (sourceTable : String) (targetTable? : Option String) :
    List Ev :=
  let targetTable := resolvedTarget sourceTable targetTable?
  let colsStep :=
    match env.getColumns sourceTable with
    | .ok cs => ([Ev.getCols sourceTable], some cs)
    | .error e =>
      ([Ev.getCols sourceTable, Ev.logError ("Error fetching columns: " ++ e)],
        (none : Option (List Col)))
  let createStep :=
    match colsStep.2 with
    | none => [Ev.logError "Error creating table: NameError: source_columns"]
    | some cs =>
      match env.createTable targetTable cs with
      | .ok _ => [Ev.createTab targetTable cs]
      | .error e => [Ev.createTab targetTable cs, Ev.logError ("Error creating table: " ++ e)]
  let fetchStep :=
    match env.fetchData sourceTable with
    | .ok d => ([Ev.fetchData sourceTable], some d)
    | .error e =>
      ([Ev.fetchData sourceTable, Ev.logError ("Error fetching data: " ++ e)],
        (none : Option (List Row)))
  let insertStep :=
    match fetchStep.2 with
    | none => [Ev.logError "Error inserting data: NameError: source_data"]
    | some d =>
      match env.insertData targetTable d with
      | .ok _ => [Ev.insertData targetTable d]
      | .error e => [Ev.insertData targetTable d, Ev.logError ("Error inserting data: " ++ e)]
  colsStep.1 ++ createStep ++ fetchStep.1 ++ insertStep

/-- The inner loop of the wildcard branch (lines 20-21): sync_table per
discovered table, with no target argument. -/
def syncAll (env : SyncEnv) : List String → List Ev
  | [] => []
  | t :: ts => sync_table env t none ++ syncAll env ts

/-- Shallow embedding of SyncManager.sync (lines 14-23): iterate the table
mapping; a "*" source discovers all tables and syncs each; any other source
only emits the debug record of the else-branch (line 23) — that branch
contains no further statement. -/
def sync (env : SyncEnv) : List (String × Option String) → List Ev
  | [] => []
  | (sourceTable, _) :: rest =>
    (if sourceTable = "*" then
      Ev.logDebug "Syncing all tables" :: Ev.listTables ::
        Ev.logDebug ("Tables found: " ++ String.intercalate ", " env.allTables) ::
        syncAll env env.allTables
    else
      [Ev.logDebug ("Syncing table: " ++ sourceTable)]) ++ sync env rest

/-! ## Theorems -/

/-- Claim C1: for a table-mapping configuration containing only explicit
(non-wildcard) source/target pairs, one call to sync performs exactly one
getColumns/ensureTable/fetchAll/copy sequence per pair. The code refutes
this: the else-branch of sync only emits the debug record "Syncing table:
..." and never calls sync_table, so, whatever the database environment, no
per-table operation is issued at all for an explicit pair. -/
theorem C1_explicit_pair_not_synced (env : SyncEnv) :
    sync env [("users", some "users_copy")] = [Ev.logDebug "Syncing table: users"] := by
  have h : ¬ ("users" = "*") := by decide
  simp [sync, h]

/-- Claim C3: with the table mapping given to the orchestrator being the
single wildcard entry ("*" mapped to null) and the source exposing tables
a and b, one sync run discovers both tables and, for each, runs the full
getColumns/ensureTable/fetchAll/copy sequence with target name equal to
source name: both target tables are provisioned (createTab) and populated
(insertData with the fetched rows). -/
theorem C3_wildcard_sync (env : SyncEnv)
    (ca cb : List Col) (da db : List Row)
    (hT : env.allTables = ["a", "b"])
    (hca : env.getColumns "a" = .ok ca) (hcb : env.getColumns "b" = .ok cb)
    (hta : env.createTable "a" ca = .ok ()) (htb : env.createTable "b" cb = .ok ())
    (hda : env.fetchData "a" = .ok da) (hdb : env.fetchData "b" = .ok db)
    (hia : env.insertData "a" da = .ok ()) (hib : env.insertData "b" db = .ok ()) :
    sync env [("*", none)] =
      [Ev.logDebug "Syncing all tables", Ev.listTables,
       Ev.logDebug "Tables found: a, b",
       Ev.getCols "a", Ev.createTab "a" ca, Ev.fetchData "a", Ev.insertData "a" da,
       Ev.getCols "b", Ev.createTab "b" cb, Ev.fetchData "b", Ev.insertData "b" db] := by
  have hmsg : "Tables found: " ++ String.intercalate ", " ["a", "b"] = "Tables found: a, b" := by
    decide
  simp [sync, syncAll, sync_table, resolvedTarget, hT, hmsg, hca, hcb, hta, htb, hda, hdb,
    hia, hib]

/-- Claim C3 witness: a concrete successful environment exposing tables a
and b, run through the wildcard mapping. -/
theorem C3_wildcard_sync_witness :
    sync
      { allTables := ["a", "b"],
        getColumns := fun _ => .ok [{ name := "id", type := "integer" }],
        createTable := fun _ _ => .ok (),
        fetchData := fun t => .ok [[("id", some t)]],
        insertData := fun _ _ => .ok () } [("*", none)] =
      [Ev.logDebug "Syncing all tables", Ev.listTables,
       Ev.logDebug "Tables found: a, b",
       Ev.getCols "a", Ev.createTab "a" [{ name := "id", type := "integer" }],
       Ev.fetchData "a", Ev.insertData "a" [[("id", some "a")]],
       Ev.getCols "b", Ev.createTab "b" [{ name := "id", type := "integer" }],
       Ev.fetchData "b", Ev.insertData "b" [[("id", some "b")]]] :=
  C3_wildcard_sync _ _ _ _ _ rfl rfl rfl rfl rfl rfl rfl rfl rfl

/-- Claim C4 counterexample: the claim says that after a failing step no
further step of the sequence is attempted for that pair. With getColumns
failing, the code still runs the create step (which fails on the unbound
source_columns local and is logged), still issues fetchAll, and still issues
copy with the fetched data — so the pair is not abandoned. -/
theorem C4_counterexample :
    sync_table
      { allTables := [],
        getColumns := fun _ => .error "relation does not exist",
        createTable := fun _ _ => .ok (),
        fetchData := fun _ => .ok [[("id", some "1")]],
        insertData := fun _ _ => .ok () } "users" none =
      [Ev.getCols "users",
       Ev.logError "Error fetching columns: relation does not exist",
       Ev.logError "Error creating table: NameError: source_columns",
       Ev.fetchData "users",
       Ev.insertData "users" [[("id", some "1")]]]
    ∧ Ev.fetchData "users" ∈ sync_table
      { allTables := [],
        getColumns := fun _ => .error "relation does not exist",
        createTable := fun _ _ => .ok (),
        fetchData := fun _ => .ok [[("id", some "1")]],
        insertData := fun _ _ => .ok () } "users" none := by
  constructor <;> decide

/-- Claim C4 amended: when any of the four steps of the per-table sequence
fails, the failure is logged, but the remaining steps are still attempted
rather than the pair being abandoned; errors never propagate out of
sync_table (it is total), so the loop proceeds to the next pair. Per step:
a getColumns failure is logged, the create step still runs (failing on the
unbound source_columns local, also logged) and the fetch step is still
issued; a createTable failure is logged and the fetch step is still issued;
a fetchAll failure is logged and the copy step still runs (failing on the
unbound source_data local, also logged); a copy failure is logged. -/
theorem C4_amended_steps_continue (env : SyncEnv) (src : String) (tgt? : Option String)
    (e : String) :
    (env.getColumns src = .error e →
      Ev.logError ("Error fetching columns: " ++ e) ∈ sync_table env src tgt?
      ∧ Ev.logError "Error creating table: NameError: source_columns" ∈ sync_table env src tgt?
      ∧ Ev.fetchData src ∈ sync_table env src tgt?)
    ∧ (∀ cs, env.getColumns src = .ok cs →
        env.createTable (resolvedTarget src tgt?) cs = .error e →
        Ev.logError ("Error creating table: " ++ e) ∈ sync_table env src tgt?
        ∧ Ev.fetchData src ∈ sync_table env src tgt?)
    ∧ (env.fetchData src = .error e →
        Ev.logError ("Error fetching data: " ++ e) ∈ sync_table env src tgt?
        ∧ Ev.logError "Error inserting data: NameError: source_data" ∈ sync_table env src tgt?)
    ∧ (∀ d, env.fetchData src = .ok d →
        env.insertData (resolvedTarget src tgt?) d = .error e →
        Ev.logError ("Error inserting data: " ++ e) ∈ sync_table env src tgt?) := by
  refine ⟨?_, ?_, ?_, ?_⟩
  · intro h
    unfold sync_table
    rcases hf : env.fetchData src with e2 | d <;> simp [h, hf]
  · intro cs hcs hct
    unfold sync_table
    rcases hf : env.fetchData src with e2 | d <;> simp [hcs, hct, hf]
  · intro hf
    unfold sync_table
    rcases hc : env.getColumns src with e2 | cs
    · simp [hc, hf]
    · rcases hct : env.createTable (resolvedTarget src tgt?) cs with e3 | u <;>
        simp [hc, hct, hf]
  · intro d hd hi
    unfold sync_table
    rcases hc : env.getColumns src with e2 | cs
    · simp [hc, hd, hi]
    · rcases hct : env.createTable (resolvedTarget src tgt?) cs with e3 | u <;>
        simp [hc, hct, hd, hi]

/-- When a row's keys cover the column list, the primary-path value
extraction succeeds and yields exactly the per-column lookups. -/
lemma extractValues_complete (row : Row) :
    ∀ columns : List String, (∀ c ∈ columns, (row.lookup c).isSome) →
    extractValues row columns = .ok (valsOf columns row) := by
  intro columns
  induction columns with
  | nil => intro _; rfl
  | cons c cs ih =>
    intro h
    obtain ⟨v, hv⟩ := Option.isSome_iff_exists.mp (h c (List.mem_cons_self _ _))
    have ih2 := ih (fun x hx => h x (List.mem_cons_of_mem _ hx))
    simp [extractValues, valsOf, hv, ih2]

/-- Behaviour of the primary insert loop when the rows before the failing
one all extract cleanly and their INSERTs succeed, and the INSERT of the row
after them raises: the loop ends there, having inserted only the earlier
rows, with the counter past the failed call. -/
lemma primaryInsertLoop_exec_fail (exec : Nat → Except String Unit)
    (columns : List String) (e : String) :
    ∀ (pre : List Row) (rowJ : Row) (post : List Row) (k : Nat) (acc : List (List Value)),
    (∀ r ∈ pre, ∀ c ∈ columns, (r.lookup c).isSome) →
    (∀ c ∈ columns, (rowJ.lookup c).isSome) →
    (∀ i, i < pre.length → exec (k + i) = .ok ()) →
    exec (k + pre.length) = .error e →
    primaryInsertLoop exec columns (pre ++ rowJ :: post) k acc =
      (acc ++ pre.map (valsOf columns), k + pre.length + 1, some e) := by
  intro pre
  induction pre with
  | nil =>
    intro rowJ post k acc _ hJ _ hfail
    have hx := extractValues_complete rowJ columns hJ
    have hfail2 : exec k = .error e := by simpa using hfail
    simp [primaryInsertLoop, hx, hfail2]
  | cons r pre ih =>
    intro rowJ post k acc hpre hJ hok hfail
    have hr := extractValues_complete r columns (hpre r (List.mem_cons_self _ _))
    have h0 : exec k = .ok () := by simpa using hok 0 (Nat.succ_pos _)
    have hrec := ih rowJ post (k + 1) (acc ++ [valsOf columns r])
      (fun x hx => hpre x (List.mem_cons_of_mem _ hx)) hJ
      (fun i hi => by
        have := hok (i + 1) (by simpa using Nat.succ_lt_succ hi)
        rwa [Nat.add_comm i 1, ← Nat.add_assoc] at this)
      (by
        have := hfail
        simp only [List.length_cons] at this
        rwa [Nat.add_comm pre.length 1, ← Nat.add_assoc] at this)
    simp only [List.cons_append, primaryInsertLoop, hr, h0, List.append_eq]
    rw [hrec]
    have harith : k + 1 + pre.length + 1 = k + (pre.length + 1) + 1 := by omega
    simp [List.append_assoc, harith]

/-- Behaviour of the primary insert loop when the rows before the failing
one all extract cleanly and their INSERTs succeed, and the value extraction
of the row after them raises (a missing key): the loop ends there before
issuing an INSERT for that row. -/
lemma primaryInsertLoop_extract_fail (exec : Nat → Except String Unit)
    (columns : List String) (e : String) :
    ∀ (pre : List Row) (rowJ : Row) (post : List Row) (k : Nat) (acc : List (List Value)),
    (∀ r ∈ pre, ∀ c ∈ columns, (r.lookup c).isSome) →
    (∀ i, i < pre.length → exec (k + i) = .ok ()) →
    extractValues rowJ columns = .error e →
    primaryInsertLoop exec columns (pre ++ rowJ :: post) k acc =
      (acc ++ pre.map (valsOf columns), k + pre.length, some e) := by
  intro pre
  induction pre with
  | nil =>
    intro rowJ post k acc _ _ hJ
    simp [primaryInsertLoop, hJ]
  | cons r pre ih =>
    intro rowJ post k acc hpre hok hJ
    have hr := extractValues_complete r columns (hpre r (List.mem_cons_self _ _))
    have h0 : exec k = .ok () := by simpa using hok 0 (Nat.succ_pos _)
    have hrec := ih rowJ post (k + 1) (acc ++ [valsOf columns r])
      (fun x hx => hpre x (List.mem_cons_of_mem _ hx))
      (fun i hi => by
        have := hok (i + 1) (by simpa using Nat.succ_lt_succ hi)
        rwa [Nat.add_comm i 1, ← Nat.add_assoc] at this)
      hJ
    simp only [List.cons_append, primaryInsertLoop, hr, h0, List.append_eq]
    rw [hrec]
    have harith : k + 1 + pre.length = k + (pre.length + 1) := by omega
    simp [List.append_assoc, harith]

/-- Behaviour of the alternative insert loop when every INSERT it issues
succeeds: it re-inserts every row of the list it is given. -/
lemma altInsertLoop_all_ok (exec : Nat → Except String Unit) (columns : List String) :
    ∀ (rows : List Row) (k : Nat) (acc : List (List Value)),
    (∀ i, i < rows.length → exec (k + i) = .ok ()) →
    altInsertLoop exec columns rows k acc = (acc ++ rows.map (valsOf columns), none) := by
  intro rows
  induction rows with
  | nil => intro k acc _; simp [altInsertLoop]
  | cons r rs ih =>
    intro k acc hok
    have h0 : exec k = .ok () := by simpa using hok 0 (Nat.succ_pos _)
    have hrec := ih (k + 1) (acc ++ [valsOf columns r])
      (fun i hi => by
        have := hok (i + 1) (by simpa using Nat.succ_lt_succ hi)
        rwa [Nat.add_comm i 1, ← Nat.add_assoc] at this)
    simp [altInsertLoop, h0, hrec]

/-- Claim C4 amended witness: a getColumns failure (first conjunct) and a
copy failure with an explicit target (last conjunct), each at a concrete
environment. -/
theorem C4_amended_witness :
    (Ev.logError ("Error fetching columns: " ++ "boom") ∈ sync_table
      { allTables := [],
        getColumns := fun _ => .error "boom",
        createTable := fun _ _ => .ok (),
        fetchData := fun _ => .ok [],
        insertData := fun _ _ => .ok () } "users" none
    ∧ Ev.logError "Error creating table: NameError: source_columns" ∈ sync_table
      { allTables := [],
        getColumns := fun _ => .error "boom",
        createTable := fun _ _ => .ok (),
        fetchData := fun _ => .ok [],
        insertData := fun _ _ => .ok () } "users" none
    ∧ Ev.fetchData "users" ∈ sync_table
      { allTables := [],
        getColumns := fun _ => .error "boom",
        createTable := fun _ _ => .ok (),
        fetchData := fun _ => .ok [],
        insertData := fun _ _ => .ok () } "users" none)
    ∧ Ev.logError ("Error inserting data: " ++ "full disk") ∈ sync_table
      { allTables := [],
        getColumns := fun _ => .ok [],
        createTable := fun _ _ => .ok (),
        fetchData := fun _ => .ok [[("id", some "1")]],
        insertData := fun _ _ => .error "full disk" } "users" (some "users_copy") :=
  ⟨(C4_amended_steps_continue
      { allTables := [],
        getColumns := fun _ => .error "boom",
        createTable := fun _ _ => .ok (),
        fetchData := fun _ => .ok [],
        insertData := fun _ _ => .ok () } "users" none "boom").1 rfl,
   (C4_amended_steps_continue
      { allTables := [],
        getColumns := fun _ => .ok [],
        createTable := fun _ _ => .ok (),
        fetchData := fun _ => .ok [[("id", some "1")]],
        insertData := fun _ _ => .error "full disk" } "users" (some "users_copy")
      "full disk").2.2.2 [[("id", some "1")]] rfl rfl⟩

/-- Claim C2 counterexample: the claim says that with N rows where exactly
the K-th insert fails, copy performs N-1 successful inserts. With N = 2 and
K = 1 the code performs 0 successful inserts, not 1: the row loop sits in a
single try-block, so the failure aborts the remaining rows. One failure is
logged and the call returns normally. -/
theorem C2_counterexample :
    (insert_data (fun k => if k = 0 then Except.error "insert failed" else Except.ok ())
        "users_copy" [[("id", some "1")], [("id", some "2")]]).inserted = []
    ∧ (insert_data (fun k => if k = 0 then Except.error "insert failed" else Except.ok ())
        "users_copy" [[("id", some "1")], [("id", some "2")]]).errorLogs.length = 1
    ∧ ¬ ((insert_data (fun k => if k = 0 then Except.error "insert failed" else Except.ok ())
        "users_copy" [[("id", some "1")], [("id", some "2")]]).inserted.length
          = [[("id", (some "1" : Value))], [("id", some "2")]].length - 1) := by
  decide

/-- Claim C2 amended: for a call to copy (insert_data) where the INSERT of
the row at position K (0-based: after the rows of pre) fails with an error
message not containing odict_iterator, the call performs exactly the K
inserts of the earlier rows — the failing row and every later row are not
inserted — logs exactly one failure at the copy level, and returns without
raising (insert_data is total). -/
theorem C2_amended_partial_abort (exec : Nat → Except String Unit) (tableName : String)
    (pre post : List Row) (rowJ : Row) (e : String)
    (hpre : ∀ r ∈ pre, ∀ c ∈ derivedColumns (pre ++ rowJ :: post), (r.lookup c).isSome)
    (hJ : ∀ c ∈ derivedColumns (pre ++ rowJ :: post), (rowJ.lookup c).isSome)
    (hok : ∀ i, i < pre.length → exec i = .ok ())
    (hfail : exec pre.length = .error e)
    (hnot : strContains e "odict_iterator" = false) :
    (insert_data exec tableName (pre ++ rowJ :: post)).inserted
        = pre.map (valsOf (derivedColumns (pre ++ rowJ :: post)))
    ∧ (insert_data exec tableName (pre ++ rowJ :: post)).errorLogs.length = 1 := by
  have hne : (pre ++ rowJ :: post).isEmpty = false := by cases pre <;> simp
  have hloop := primaryInsertLoop_exec_fail exec (derivedColumns (pre ++ rowJ :: post)) e
    pre rowJ post 0 [] hpre hJ (fun i hi => by simpa using hok i hi) (by simpa using hfail)
  simp [insert_data, hne, hloop, hnot]

/-- Claim C2 amended witness: two rows, second INSERT fails; exactly the
first row is inserted and one failure is logged. -/
theorem C2_amended_witness :
    (insert_data (fun k => if k = 1 then Except.error "duplicate key" else Except.ok ())
        "t" [[("id", some "1")], [("id", some "2")]]).inserted = [[some "1"]]
    ∧ (insert_data (fun k => if k = 1 then Except.error "duplicate key" else Except.ok ())
        "t" [[("id", some "1")], [("id", some "2")]]).errorLogs.length = 1 := by
  have h := C2_amended_partial_abort
    (fun k => if k = 1 then Except.error "duplicate key" else Except.ok ())
    "t" [[("id", some "1")]] [] [("id", some "2")] "duplicate key"
    (by decide) (by decide)
    (by
      intro i hi
      have h1 : i < 1 := by simpa using hi
      have h0 : i = 0 := by omega
      subst h0
      rfl)
    rfl (by decide)
  exact ⟨h.1.trans (by decide), h.2⟩

/-- Claim C6: when the primary loop of insert_data has already inserted the
K rows of pre and then fails with an error message containing
odict_iterator, the alternative path iterates over the entire row list again
from the first row; if its inserts succeed, the overall successful-insert
trace is the K earlier rows followed by the whole list again, so each of the
K already-inserted rows is inserted a second time (its value tuple occurs at
least twice). Exactly one failure is logged. -/
theorem C6_alt_reinserts (exec : Nat → Except String Unit) (tableName : String)
    (pre post : List Row) (rowK : Row) (e : String)
    (hK : 0 < pre.length)
    (hall : ∀ r ∈ pre ++ rowK :: post, ∀ c ∈ derivedColumns (pre ++ rowK :: post),
      (r.lookup c).isSome)
    (hok : ∀ i, i < pre.length → exec i = .ok ())
    (hfail : exec pre.length = .error e)
    (hodict : strContains e "odict_iterator" = true)
    (halt : ∀ i, pre.length < i → exec i = .ok ()) :
    (insert_data exec tableName (pre ++ rowK :: post)).inserted
        = pre.map (valsOf (derivedColumns (pre ++ rowK :: post)))
          ++ (pre ++ rowK :: post).map (valsOf (derivedColumns (pre ++ rowK :: post)))
    ∧ (∀ r ∈ pre,
        2 ≤ ((insert_data exec tableName (pre ++ rowK :: post)).inserted.count
            (valsOf (derivedColumns (pre ++ rowK :: post)) r)))
    ∧ (insert_data exec tableName (pre ++ rowK :: post)).errorLogs.length = 1 := by
  have hne : (pre ++ rowK :: post).isEmpty = false := by cases pre <;> simp
  have hloop := primaryInsertLoop_exec_fail exec (derivedColumns (pre ++ rowK :: post)) e
    pre rowK post 0 [] (fun r hr => hall r (List.mem_append_left _ hr))
    (hall rowK (List.mem_append_right _ (List.mem_cons_self _ _)))
    (fun i hi => by simpa using hok i hi) (by simpa using hfail)
  have haltloop := altInsertLoop_all_ok exec (derivedColumns (pre ++ rowK :: post))
    (pre ++ rowK :: post) (0 + pre.length + 1) []
    (fun i _ => halt (0 + pre.length + 1 + i) (by omega))
  simp only [Nat.zero_add, List.nil_append] at hloop haltloop
  have hmain :
      (insert_data exec tableName (pre ++ rowK :: post)).inserted
        = pre.map (valsOf (derivedColumns (pre ++ rowK :: post)))
          ++ (pre ++ rowK :: post).map (valsOf (derivedColumns (pre ++ rowK :: post))) := by
    simp [insert_data, hne, hloop, haltloop, hodict]
  refine ⟨hmain, ?_, ?_⟩
  · intro r hr
    rw [hmain, List.count_append]
    have h1 : valsOf (derivedColumns (pre ++ rowK :: post)) r
        ∈ pre.map (valsOf (derivedColumns (pre ++ rowK :: post))) :=
      List.mem_map_of_mem _ hr
    have h2 : valsOf (derivedColumns (pre ++ rowK :: post)) r
        ∈ (pre ++ rowK :: post).map (valsOf (derivedColumns (pre ++ rowK :: post))) :=
      List.mem_map_of_mem _ (List.mem_append_left _ hr)
    have c1 := List.count_pos_iff.mpr h1
    have c2 := List.count_pos_iff.mpr h2
    omega
  · simp [insert_data, hne, hloop, haltloop, hodict]

/-- Claim C6 witness: one row already inserted, then an odict_iterator
failure; the alternative path re-inserts the whole list, so the first row's
values appear twice. -/
theorem C6_alt_reinserts_witness :
    (insert_data
        (fun k => if k = 1 then Except.error "cannot convert odict_iterator" else Except.ok ())
        "t" [[("id", some "1")], [("id", some "2")]]).inserted
      = [[some "1"], [some "1"], [some "2"]] := by
  have h := C6_alt_reinserts
    (fun k => if k = 1 then Except.error "cannot convert odict_iterator" else Except.ok ())
    "t" [[("id", some "1")]] [] [("id", some "2")] "cannot convert odict_iterator"
    (by decide) (by decide)
    (by
      intro i hi
      have h1 : i < 1 := by simpa using hi
      have h0 : i = 0 := by omega
      subst h0
      rfl)
    rfl (by decide)
    (by
      intro i hi
      have h1 : 1 < i := by simpa using hi
      have h0 : ¬ (i = 1) := by omega
      simp [h0])
  exact h.1.trans (by decide)

/-- Claim C8 counterexample: the claim says a column name missing from a
row's mapping yields a null value and an INSERT is still issued for that
row. With rows [{a:1, b:2}, {a:3}] the second row raises a KeyError on the
primary path instead: only one INSERT succeeds, the whole loop aborts, and
the failure is logged — no INSERT with a null value is issued for the
second row. -/
theorem C8_counterexample :
    (insert_data (fun _ => Except.ok ()) "t"
        [[("a", some "1"), ("b", some "2")], [("a", some "3")]]).inserted
      = [[some "1", some "2"]]
    ∧ (insert_data (fun _ => Except.ok ()) "t"
        [[("a", some "1"), ("b", some "2")], [("a", some "3")]]).errorLogs
      = ["Error inserting data into table t: KeyError: b"]
    ∧ ¬ ((insert_data (fun _ => Except.ok ()) "t"
        [[("a", some "1"), ("b", some "2")], [("a", some "3")]]).inserted.length = 2) := by
  decide

/-- Claim C8 amended: on the primary path of copy, a column name from the
derived column list that is missing from a row's mapping raises a KeyError
while extracting that row's values: no INSERT is issued for that row or any
later row, the rows before it remain the only ones inserted, and the failure
is logged once without raising to the caller. Null-filling of missing keys
happens only on the alternative path, which is entered only when the error
message contains odict_iterator. -/
theorem C8_amended_keyerror_abort (exec : Nat → Except String Unit) (tableName : String)
    (pre post : List Row) (rowJ : Row) (e : String)
    (hpre : ∀ r ∈ pre, ∀ c ∈ derivedColumns (pre ++ rowJ :: post), (r.lookup c).isSome)
    (hok : ∀ i, i < pre.length → exec i = .ok ())
    (hJ : extractValues rowJ (derivedColumns (pre ++ rowJ :: post)) = .error e)
    (hnot : strContains e "odict_iterator" = false) :
    (insert_data exec tableName (pre ++ rowJ :: post)).inserted
        = pre.map (valsOf (derivedColumns (pre ++ rowJ :: post)))
    ∧ (insert_data exec tableName (pre ++ rowJ :: post)).errorLogs.length = 1 := by
  have hne : (pre ++ rowJ :: post).isEmpty = false := by cases pre <;> simp
  have hloop := primaryInsertLoop_extract_fail exec (derivedColumns (pre ++ rowJ :: post)) e
    pre rowJ post 0 [] hpre (fun i hi => by simpa using hok i hi) hJ
  simp [insert_data, hne, hloop, hnot]

/-- Claim C8 amended witness: second row lacks column b; only the first row
is inserted and one failure is logged. -/
theorem C8_amended_witness :
    (insert_data (fun _ => Except.ok ()) "users_copy"
        [[("a", some "1"), ("b", some "2")], [("a", some "3")]]).inserted
      = [[some "1", some "2"]]
    ∧ (insert_data (fun _ => Except.ok ()) "users_copy"
        [[("a", some "1"), ("b", some "2")], [("a", some "3")]]).errorLogs.length = 1 := by
  have h := C8_amended_keyerror_abort (fun _ => Except.ok ()) "users_copy"
    [[("a", some "1"), ("b", some "2")]] [] [("a", some "3")] "KeyError: b"
    (by decide) (fun i _ => rfl) rfl (by decide)
  exact ⟨h.1.trans (by decide), h.2⟩

/-- Claim C5 (code_bug evidence): the claim says the first fallback strategy
yielding a non-empty sequence is accepted. In the code the visible-relations
and owned-by-current-user statements are triple-quoted and start with a
newline, so execute_query's select-prefix test fails for them and returns an
empty list regardless of what the session produced: here the session has a
visible relation t1, the primary catalog query is empty, and
fetch_all_tables still returns the empty list. (The owned-by-current-user
strategy is additionally only ever reached from the except-block, not after
an empty visible-relations result.) -/
theorem C5_fallback_dead :
    fetch_all_tables
      { connected := true, rawTables := .ok [],
        fetch := fun q =>
          if q = visibleTablesQuery then .ok [[("table_name", some "t1")]]
          else .ok [] } = []
    ∧ (fun q =>
          if q = visibleTablesQuery then (.ok [[("table_name", some "t1")]] : Except String (List Row))
          else .ok []) visibleTablesQuery = .ok [[("table_name", some "t1")]]
    ∧ startsWithSelect visibleTablesQuery = false
    ∧ startsWithSelect emergencyQuery = false := by
  refine ⟨by decide, by simp, by decide, by decide⟩

/-- Claim C7 counterexample: the claim says ensureTable with an empty column
sequence fails with a provisioning error rather than succeeding. The code
performs no emptiness check and defines no such error: it builds the
zero-column statement and succeeds whenever the underlying execute succeeds.
-/
theorem C7_counterexample :
    create_table true (fun _ => Except.ok []) "users" [] = Except.ok ()
    ∧ createTableQuery "users" [] = "CREATE TABLE IF NOT EXISTS users ();" := by
  exact ⟨rfl, by decide⟩

/-- Claim C7 amended: create_table called with an empty column sequence
performs no emptiness check and raises no dedicated provisioning error: it
issues the zero-column CREATE TABLE IF NOT EXISTS statement, succeeds
whenever the underlying execute succeeds, and propagates the execute's
failure unchanged otherwise (sync_table then logs it — and still attempts
the transfer steps, see C4). -/
theorem C7_amended_no_empty_check (fetch : String → Except String (List Row)) (t : String) :
    (∀ e, fetch (createTableQuery t []) = .error e →
      create_table true fetch t [] = .error e)
    ∧ (∀ rows, fetch (createTableQuery t []) = .ok rows →
      create_table true fetch t [] = .ok ()) := by
  constructor
  · intro e he
    simp [create_table, execute_query, he]
  · intro rows hr
    rcases h2 : startsWithSelect (createTableQuery t []) <;>
      simp [create_table, execute_query, hr, h2]

/-- Claim C7 amended witness. -/
theorem C7_amended_witness :
    create_table true (fun _ => Except.ok []) "users_copy" [] = Except.ok () :=
  (C7_amended_no_empty_check (fun _ => Except.ok []) "users_copy").2 [] rfl

/-- Claim C9 counterexample: the claim says a read query returns the ordered
result rows. The visible-relations statement of the repository is a read
query (a select with leading whitespace), the session returns a row for it,
yet execute_query returns the empty sequence and commits it like a write,
because its classifier tests the raw text for the prefix select. -/
theorem C9_counterexample :
    isReadQuery_spec visibleTablesQuery = true
    ∧ execute_query true (fun _ => Except.ok [[("table_name", some "t1")]])
        visibleTablesQuery = Except.ok { rows := [], committed := true } := by
  exact ⟨by decide, rfl⟩

/-- Claim C9 amended: execute_query on an open connection classifies by the
literal, case-insensitive prefix select of the raw statement text: such
statements return the fetched rows without a commit; every other statement —
including read statements with leading whitespace or a SHOW — returns an
empty sequence and is committed immediately. -/
theorem C9_amended_prefix_classifier (fetch : String → Except String (List Row))
    (q : String) (rows : List Row) (h : fetch q = .ok rows) :
    (startsWithSelect q = true →
      execute_query true fetch q = .ok { rows := rows, committed := false })
    ∧ (startsWithSelect q = false →
      execute_query true fetch q = .ok { rows := [], committed := true }) := by
  constructor <;> intro hb <;> simp [execute_query, h, hb]

/-- Claim C9 amended witness: a select-prefixed statement returns its rows
without commit; a SHOW statement returns empty and commits. -/
theorem C9_amended_witness :
    execute_query true (fun _ => Except.ok [[("x", some "1")]]) "SELECT 1"
      = Except.ok { rows := [[("x", some "1")]], committed := false }
    ∧ execute_query true (fun _ => Except.ok [[("x", some "1")]]) "SHOW search_path;"
      = Except.ok { rows := [], committed := true } :=
  ⟨(C9_amended_prefix_classifier _ "SELECT 1" _ rfl).1 (by decide),
   (C9_amended_prefix_classifier _ "SHOW search_path;" _ rfl).2 (by decide)⟩

/-- Claim C10: for a table whose primary catalog column query returns zero
columns without raising and whose zero-row select resolves exactly three
column names, get_table_columns returns exactly those three descriptors in
the select's column order, each typed by the per-column information-schema
lookup, with the generic type text for a column whose lookup returns
nothing. -/
theorem C10_alt_column_order (env : ColsEnv) (n1 n2 n3 : String) (t1 t2 t3 : Option String)
    (h1 : env.primaryCols = .ok [])
    (h2 : env.altSelectNames = .ok [n1, n2, n3])
    (h3 : env.typeLookup n1 = .ok t1)
    (h4 : env.typeLookup n2 = .ok t2)
    (h5 : env.typeLookup n3 = .ok t3) :
    get_table_columns env =
      [{ name := n1, type := t1.getD "text" },
       { name := n2, type := t2.getD "text" },
       { name := n3, type := t3.getD "text" }] := by
  simp [get_table_columns, altColumns, altColumnsLoop, h1, h2, h3, h4, h5]

/-- Claim C10 witness: three columns from the zero-row select, one of which
has a type from the lookup and two of which fall back to text. -/
theorem C10_alt_column_order_witness :
    get_table_columns
      { connected := true, primaryCols := .ok [],
        altSelectNames := .ok ["id", "name", "age"],
        typeLookup := fun n => .ok (if n = "id" then some "integer" else none),
        fetch := fun _ => .ok [] } =
      [{ name := "id", type := "integer" },
       { name := "name", type := "text" },
       { name := "age", type := "text" }] := by
  have h := C10_alt_column_order
    { connected := true, primaryCols := .ok [],
      altSelectNames := .ok ["id", "name", "age"],
      typeLookup := fun n => .ok (if n = "id" then some "integer" else none),
      fetch := fun _ => .ok [] } "id" "name" "age" (some "integer") none none
    rfl rfl rfl rfl rfl
  exact h

end PgDbSync
